import Mathlib

/-!
Shallow embedding of the MakeAgend scheduling / licensing core:
the license state evaluator and lifecycle manager (`LicenseService`),
the real-time license monitor (`RealTimeLicenseService`), the access
gate (`useLicenseGuard`), the appointment conflict checker
(`AppointmentModal.checkTimeConflicts`), the business-key generator,
and the digital-record permission checks of the session layer.

JavaScript `Date` values are modelled as civil calendar fields
(year, 0-based month, 1-based day) plus milliseconds past midnight;
field mutators (`setDate`, `setMonth`, `setFullYear`) are modelled with
the usual calendar normalization for the non-negative overflows the
code produces. Comparisons between dates go through the epoch-day
timestamp, matching JS comparison of `Date` objects by epoch
milliseconds.
-/

namespace MakeAgend

/-- Leap-year test (proleptic Gregorian, as JS `Date`). -/
def isLeap (y : Int) : Bool :=
  (y % 4 == 0 && y % 100 != 0) || y % 400 == 0

/-- Days in month `m` (0-based) of year `y`. -/
def daysInMonth (y : Int) (m : Nat) : Nat :=
  match m with
  | 0 => 31
  | 1 => if isLeap y then 29 else 28
  | 2 => 31
  | 3 => 30
  | 4 => 31
  | 5 => 30
  | 6 => 31
  | 7 => 31
  | 8 => 30
  | 9 => 31
  | 10 => 30
  | _ => 31

/-- A JavaScript `Date` value: civil calendar fields plus time of day.
`month` is 0-based (as in JS), `day` is 1-based. -/
structure JsDate where
  year : Int
  month : Nat
  day : Nat
  msOfDay : Nat := 0
deriving Repr, DecidableEq

/-- Roll an oversized day count forward through the months, as the JS
date normalization does for positive day overflow. The fuel argument
strictly bounds the months traversed; callers pass at least `day`,
which suffices since every step removes at least 28 days. -/
def rollDay : Nat → Int → Nat → Nat → JsDate → JsDate
  | 0, y, m, d, dt => { dt with year := y, month := m, day := d }
  | fuel + 1, y, m, d, dt =>
      let dim := daysInMonth y m
      if d > dim then
        if m = 11 then rollDay fuel (y + 1) 0 (d - dim) dt
        else rollDay fuel y (m + 1) (d - dim) dt
      else { dt with year := y, month := m, day := d }

/-- Normalize possibly-overflowing (non-negative) month and day fields
into a proper calendar date, preserving the time of day. -/
def normDate (dt : JsDate) (y : Int) (m : Nat) (d : Nat) : JsDate :=
  rollDay (d + 1) (y + (m / 12 : Nat)) (m % 12) d dt

/-- JS `date.setDate(date.getDate() + k)` for `k ≥ 0`. -/
def setDatePlus (dt : JsDate) (k : Nat) : JsDate :=
  normDate dt dt.year dt.month (dt.day + k)

/-- JS `date.setMonth(date.getMonth() + k)` for `k ≥ 0`. -/
def setMonthPlus (dt : JsDate) (k : Nat) : JsDate :=
  normDate dt dt.year (dt.month + k) dt.day

/-- JS `date.setFullYear(date.getFullYear() + k)`. -/
def setFullYearPlus (dt : JsDate) (k : Nat) : JsDate :=
  normDate dt (dt.year + k) dt.month dt.day

/-- Epoch day number of a civil date (days since 1970-01-01),
the standard days-from-civil computation. -/
def dayNumber (dt : JsDate) : Int :=
  let y : Int := if dt.month ≤ 1 then dt.year - 1 else dt.year
  let era : Int := y.fdiv 400
  let yoe : Int := y - era * 400
  let mp : Int := ((dt.month : Int) + 10) % 12
  let doy : Int := (153 * mp + 2).fdiv 5 + (dt.day : Int) - 1
  let doe : Int := yoe * 365 + yoe.fdiv 4 - yoe.fdiv 100 + doy
  era * 146097 + doe - 719468

/-- Epoch-millisecond timestamp of a `JsDate`; JS compares `Date`
objects by this value. -/
def timestamp (dt : JsDate) : Int :=
  dayNumber dt * 86400000 + (dt.msOfDay : Int)

/-- License duration selector, `BusinessLicense['type']` in the source:
`15days`, `1month`, `3months`, `6months`, `1year`. -/
inductive LicenseType where
  | fifteenDays
  | oneMonth
  | threeMonths
  | sixMonths
  | oneYear
deriving Repr, DecidableEq

/-- `LicenseService.calculateEndDate`: start from `startDate` and apply
the type-selected calendar-field addition (`setDate`, `setMonth` or
`setFullYear`). -/
def calculateEndDate (startDate : JsDate) (licenseType : LicenseType) : JsDate :=
  match licenseType with
  | .fifteenDays => setDatePlus startDate 15
  | .oneMonth => setMonthPlus startDate 1
  | .threeMonths => setMonthPlus startDate 3
  | .sixMonths => setMonthPlus startDate 6
  | .oneYear => setFullYearPlus startDate 1

/-- A business license record. Dates are modelled `JsDate` values
(the source stores their ISO strings). -/
structure BusinessLicense where
  type : LicenseType
  startDate : JsDate
  endDate : JsDate
  isActive : Bool
  assignedBy : String
  assignedAt : JsDate
  renewalCount : Nat
  canceledAt : Option JsDate := none
  canceledBy : Option String := none
deriving Repr, DecidableEq

/-- `isLicenseExpired` (LicenseService / RealTimeLicenseService):
a missing or inactive license is expired; otherwise the license is
expired when `now` is strictly past `endDate`. -/
def isLicenseExpired (license : Option BusinessLicense) (now : JsDate) : Bool :=
  match license with
  | none => true
  | some l => if !l.isActive then true else decide (timestamp now > timestamp l.endDate)

/-- `isLicenseExpiringSoon`: an active license whose `endDate` is at
most three calendar days away (JS `setDate(getDate() + 3)`). -/
def isLicenseExpiringSoon (license : Option BusinessLicense) (now : JsDate) : Bool :=
  match license with
  | none => false
  | some l =>
      if !l.isActive then false
      else decide (timestamp l.endDate ≤ timestamp (setDatePlus now 3))

/-- Ceiling division for integers with positive divisor,
modelling JS `Math.ceil(a / b)`. -/
def ceilDivInt (a b : Int) : Int :=
  (a + b - 1).fdiv b

/-- `getDaysRemaining`: `Math.ceil((endDate - now) / 1 day)`,
0 when the license is missing or inactive. -/
def getDaysRemaining (license : Option BusinessLicense) (now : JsDate) : Int :=
  match license with
  | none => 0
  | some l =>
      if !l.isActive then 0
      else ceilDivInt (timestamp l.endDate - timestamp now) 86400000

/-- A user record. `businessAccess` keeps the keys of the source's
`businessAccess` map (one entry per business the user can access). -/
structure User where
  uid : String
  email : String := ""
  role : String
  displayName : String := ""
  businessId : Option String := none
  currentBusiness : Option String := none
  businessAccess : List String := []
  isBlocked : Bool := false
  blockedReason : Option String := none
deriving Repr, DecidableEq

/-- A business record (the fields the licensing core reads and writes).
`isActive` is optional in the source (`isActive?: boolean`), and the
monitor tests it with `!== false`, so it is an `Option Bool` here. -/
structure Business where
  name : String := ""
  ownerId : String := ""
  businessKey : String := ""
  license : Option BusinessLicense := none
  isActive : Option Bool := none
deriving Repr, DecidableEq

/-- The slice of the persistent store the license lifecycle touches:
the `businesses/{id}` and `users/{uid}` collections, as association
lists keyed by id. -/
structure Store where
  businesses : List (String × Business)
  users : List (String × User)
deriving Repr, DecidableEq

/-- Read one child of a keyed collection. -/
def lookupKey {α : Type} (l : List (String × α)) (k : String) : Option α :=
  (l.find? (fun p => p.1 == k)).map (fun p => p.2)

/-- Overwrite the value stored under key `k`. -/
def updateKey {α : Type} (l : List (String × α)) (k : String) (f : α → α) :
    List (String × α) :=
  l.map (fun p => if p.1 == k then (p.1, f p.2) else p)

/-- The association test of `blockBusinessUsers` / `unblockBusinessUsers`:
the user's own `businessId` matches, or the user holds a
`businessAccess` entry for the business, or the user is an owner whose
`currentBusiness` matches. -/
def userAssociatedWith (user : User) (businessId : String) : Bool :=
  user.businessId == some businessId
    || user.businessAccess.contains businessId
    || (user.role == "owner" && user.currentBusiness == some businessId)

/-- `LicenseService.blockBusinessUsers`: scan every user and set
`isBlocked` / `blockedReason` on each associated one. -/
def blockBusinessUsers (businessId : String) (reason : String) (store : Store) : Store :=
  { store with
    users := store.users.map (fun p =>
      if userAssociatedWith p.2 businessId then
        (p.1, { p.2 with isBlocked := true, blockedReason := some reason })
      else p) }

/-- `LicenseService.unblockBusinessUsers`: scan every user and clear
`isBlocked` / `blockedReason` on each one that is currently blocked
(`if (user.isBlocked)`) and associated with the business. -/
def unblockBusinessUsers (businessId : String) (store : Store) : Store :=
  { store with
    users := store.users.map (fun p =>
      if p.2.isBlocked && userAssociatedWith p.2 businessId then
        (p.1, { p.2 with isBlocked := false, blockedReason := none })
      else p) }

/-- `LicenseService.assignLicense`: fails when the business is absent;
otherwise writes a fresh license with `renewalCount` one more than the
previous license's count (`business.license?.renewalCount || 0` plus
one), re-activates the business, and unblocks the associated users. -/
def assignLicense (businessId : String) (licenseType : LicenseType)
    (adminUserId : String) (now : JsDate) (store : Store) : Except String Store :=
  let startDate := now
  let endDate := calculateEndDate startDate licenseType
  match lookupKey store.businesses businessId with
  | none => .error "Negocio no encontrado"
  | some business =>
      let currentRenewalCount :=
        match business.license with
        | some lic => lic.renewalCount
        | none => 0
      let newLicense : BusinessLicense :=
        { type := licenseType
          startDate := startDate
          endDate := endDate
          isActive := true
          assignedBy := adminUserId
          assignedAt := now
          renewalCount := currentRenewalCount + 1 }
      let store1 : Store :=
        { store with
          businesses := updateKey store.businesses businessId (fun b =>
            { b with license := some newLicense, isActive := some true }) }
      .ok (unblockBusinessUsers businessId store1)

/-- `LicenseService.cancelLicense`: fails when the business is absent
or has no license; otherwise deactivates the license (stamping
`canceledAt` / `canceledBy` and terminating `endDate` at `now`),
deactivates the business, and blocks the associated users. -/
def cancelLicense (businessId : String) (adminUserId : String) (now : JsDate)
    (store : Store) : Except String Store :=
  match lookupKey store.businesses businessId with
  | none => .error "Negocio no encontrado"
  | some business =>
      match business.license with
      | none => .error "El negocio no tiene licencia activa"
      | some currentLicense =>
          let canceledLicense : BusinessLicense :=
            { currentLicense with
              isActive := false
              canceledAt := some now
              canceledBy := some adminUserId
              endDate := now }
          let store1 : Store :=
            { store with
              businesses := updateKey store.businesses businessId (fun b =>
                { b with license := some canceledLicense, isActive := some false }) }
          .ok (blockBusinessUsers businessId "Licencia cancelada por administrador" store1)

/-- `LicenseService.blockBusinessForExpiredLicense`: deactivate the
business and its license and block the associated users with the
expiry reason. -/
def blockBusinessForExpiredLicense (businessId : String) (store : Store) : Store :=
  let store1 : Store :=
    { store with
      businesses := updateKey store.businesses businessId (fun b =>
        { b with
          isActive := some false
          license := b.license.map (fun l => { l with isActive := false }) }) }
  blockBusinessUsers businessId "Licencia expirada" store1

/-- The `LicenseStatus` snapshot shape of `RealTimeLicenseService`. -/
structure LicenseStatus where
  isValid : Bool
  isExpired : Bool
  isExpiringSoon : Bool
  daysRemaining : Int
  license : Option BusinessLicense
  businessId : Option String
deriving Repr, DecidableEq

/-- Status produced for a business snapshot that exists, shared by
`checkBusinessLicense` and the `onValue` body of
`setupBusinessLicenseListener`: valid iff not expired, business not
explicitly deactivated (`isActive !== false`) and the license itself
active (`license?.isActive === true`). -/
def businessSnapshotStatus (businessId : String) (business : Business)
    (now : JsDate) : LicenseStatus :=
  let license := business.license
  let isActive := business.isActive != some false
  let isExpired := isLicenseExpired license now
  let isExpiringSoon := isLicenseExpiringSoon license now
  let daysRemaining := getDaysRemaining license now
  { isValid := !isExpired && isActive && (match license with
      | some l => l.isActive
      | none => false)
    isExpired := isExpired
    isExpiringSoon := isExpiringSoon
    daysRemaining := daysRemaining
    license := license
    businessId := some businessId }

/-- Status produced when the business snapshot does not exist. -/
def missingBusinessStatus (businessId : Option String) : LicenseStatus :=
  { isValid := false
    isExpired := true
    isExpiringSoon := false
    daysRemaining := 0
    license := none
    businessId := businessId }

/-- `RealTimeLicenseService.checkBusinessLicense` (modulo the
store read, which is the lookup in `businesses`). -/
def checkBusinessLicense (businessId : String)
    (businesses : List (String × Business)) (now : JsDate) : LicenseStatus :=
  match lookupKey businesses businessId with
  | none => missingBusinessStatus (some businessId)
  | some business => businessSnapshotStatus businessId business now

/-- The fixed status the service hands to admins. -/
def adminLicenseStatus : LicenseStatus :=
  { isValid := true
    isExpired := false
    isExpiringSoon := false
    daysRemaining := 999
    license := none
    businessId := none }

/-- The business a user's license is checked against: an owner's
`businessId`, an assistant's `currentBusiness`, otherwise none
(JS truthiness makes an empty string fall through). -/
def resolveUserBusinessId (user : User) : Option String :=
  if user.role == "owner" && (match user.businessId with
      | some b => b != ""
      | none => false) then
    user.businessId
  else if user.role == "assistant" && (match user.currentBusiness with
      | some b => b != ""
      | none => false) then
    user.currentBusiness
  else none

/-- `RealTimeLicenseService.checkUserLicenseStatus`: admins get the
fixed admin status; users without a resolvable business get the
missing-business status with a null businessId; otherwise the
business's license is checked. -/
def checkUserLicenseStatus (user : User)
    (businesses : List (String × Business)) (now : JsDate) : LicenseStatus :=
  if user.role == "admin" then adminLicenseStatus
  else
    match resolveUserBusinessId user with
    | none => missingBusinessStatus none
    | some businessId => checkBusinessLicense businessId businesses now

/-- The status `RealTimeLicenseService.setupUserLicenseListener`
delivers to its callback: the fixed admin status for admins
(no subscription is installed), the missing-business status when no
business resolves, and otherwise the per-snapshot status the installed
`onValue` listener computes for the current snapshot. -/
def setupUserLicenseListenerEmit (user : User) (snapshot : Option Business)
    (now : JsDate) : LicenseStatus :=
  if user.role == "admin" then adminLicenseStatus
  else
    match resolveUserBusinessId user with
    | none => missingBusinessStatus none
    | some businessId =>
        match snapshot with
        | some business => businessSnapshotStatus businessId business now
        | none => missingBusinessStatus (some businessId)

/-- `useLicenseGuard.canAccessSection`: no user → false; admin → every
section; blocked → only `notifications`; known-invalid license → only
the read-only allow-list; otherwise every section. -/
def canAccessSection (currentUser : Option User)
    (licenseStatus : Option LicenseStatus) (sect : String) : Bool :=
  match currentUser with
  | none => false
  | some user =>
      if user.role == "admin" then true
      else if user.isBlocked then sect == "notifications"
      else
        match licenseStatus with
        | some status =>
            if !status.isValid then ["dashboard", "notifications"].contains sect
            else true
        | none => true

/-- A bookable service (the fields the conflict checker reads). -/
structure Service where
  id : String
  name : String := ""
  duration : Nat := 0
  resources : Nat
  businessId : String := ""
deriving Repr, DecidableEq

/-- An appointment record (the fields the conflict checker reads). -/
structure Appointment where
  id : String
  clientId : String := ""
  serviceId : String
  date : String
  startTime : String
  endTime : String
  status : String
  businessId : String := ""
deriving Repr, DecidableEq

/-- The form state of the appointment modal that feeds the conflict
check. -/
structure AppointmentForm where
  clientId : String := ""
  serviceId : String
  date : String
  startTime : String
  endTime : String
deriving Repr, DecidableEq

/-- Split a character list at every `':'`, modelling the
`timeString.split(':')` call of the source. -/
def splitOnColon (cs : List Char) : List (List Char) :=
  match cs with
  | [] => [[]]
  | c :: rest =>
      let r := splitOnColon rest
      if c = ':' then [] :: r
      else
        match r with
        | seg :: segs => (c :: seg) :: segs
        | [] => [[c]]

/-- Decimal value of a digit string, modelling JS `Number` on the
well-formed numeric components the `"HH:MM"` times carry. -/
def digitsToNat (cs : List Char) : Nat :=
  cs.foldl (fun acc c => acc * 10 + (c.toNat - 48)) 0

/-- `AppointmentModal.timeToMinutes`: split `"HH:MM"` at the colon and
return `hours * 60 + minutes`. -/
def timeToMinutes (timeString : String) : Nat :=
  match splitOnColon timeString.data with
  | hours :: minutes :: _ => digitsToNat hours * 60 + digitsToNat minutes
  | _ => 0

/-- `AppointmentModal.checkTimeConflicts`: empty when a form field is
missing, the selected service is unknown, or the service has more than
one resource; otherwise the non-cancelled appointments for the same
service and date (excluding the appointment being edited, by id) whose
minute intervals overlap the candidate half-openly. -/
def checkTimeConflicts (formData : AppointmentForm) (services : List Service)
    (appointments : List Appointment) (appointment : Option Appointment) :
    List Appointment :=
  if formData.serviceId == "" || formData.date == ""
      || formData.startTime == "" || formData.endTime == "" then []
  else
    match services.find? (fun s => s.id == formData.serviceId) with
    | none => []
    | some service =>
        if service.resources > 1 then []
        else
          let startMinutes := timeToMinutes formData.startTime
          let endMinutes := timeToMinutes formData.endTime
          appointments.filter (fun apt =>
            (match appointment with
             | some editing => apt.id != editing.id
             | none => true)
            && apt.serviceId == formData.serviceId
            && apt.date == formData.date
            && apt.status != "cancelled"
            && decide (startMinutes < timeToMinutes apt.endTime)
            && decide (endMinutes > timeToMinutes apt.startTime))

/-- The hex alphabet of `generateBusinessKey`. -/
def hexChars : List Char :=
  ['0', '1', '2', '3', '4', '5', '6', '7', '8', '9', 'A', 'B', 'C', 'D', 'E', 'F']

/-- `generateBusinessKey`: sixteen draws from the hex alphabet
(`Math.floor(Math.random() * 16)` is modelled by the `Fin 16`-valued
draw sequence). -/
def generateBusinessKey (draw : Fin 16 → Fin 16) : String :=
  String.mk ((List.finRange 16).map (fun i => hexChars.getD (draw i).val ' '))

/-- `isBusinessKeyUnique`: no stored business already carries the key. -/
def isBusinessKeyUnique (key : String) (businesses : List (String × Business)) : Bool :=
  businesses.all (fun p => p.2.businessKey != key)

/-- The retry loop of `generateUniqueBusinessKey`: `remaining` attempts
are left, `attempt` indexes the draw sequence; when the attempts are
exhausted the `ValidationError` of the source is raised. -/
def generateUniqueKeyGo (draws : Nat → Fin 16 → Fin 16)
    (businesses : List (String × Business)) :
    Nat → Nat → Except String String
  | 0, _ => .error "No se pudo generar una clave única después de varios intentos"
  | remaining + 1, attempt =>
      let key := generateBusinessKey (draws attempt)
      if isBusinessKeyUnique key businesses then .ok key
      else generateUniqueKeyGo draws businesses remaining (attempt + 1)

/-- `generateUniqueBusinessKey`: up to `maxAttempts = 10` draws. -/
def generateUniqueBusinessKey (draws : Nat → Fin 16 → Fin 16)
    (businesses : List (String × Business)) : Except String String :=
  generateUniqueKeyGo draws businesses 10 0

/-- A digital client record (the fields the delete path reads). -/
structure DigitalRecord where
  id : String := ""
  clientId : String := ""
  businessId : String := ""
  createdBy : Option String := none
deriving Repr, DecidableEq

/-- `AuthContext.validateRecordAccess`: the caller must exist and
either own the target business (`currentUser.businessId === businessId`)
or hold a `businessAccess` entry for it. -/
def validateRecordAccess (currentUser : Option User)
    (businessAccess : List String) (businessId : String) : Except String Unit :=
  match currentUser with
  | none => .error "Usuario no autenticado"
  | some user =>
      if user.businessId == some businessId || businessAccess.contains businessId then
        .ok ()
      else .error "No tienes permiso para acceder a este recurso"

/-- `AuthContext.deleteClientRecord`: validate record access, require a
record id and an existing record, and — when the record was created by
someone else — additionally require the caller to be an owner or an
assistant whose own `businessId` is the target business; only then is
the record removed (`.ok`). -/
def deleteClientRecord (currentUser : Option User) (businessAccess : List String)
    (businessId : String) (recordId : String) (record : Option DigitalRecord) :
    Except String Unit :=
  match validateRecordAccess currentUser businessAccess businessId with
  | .error e => .error e
  | .ok _ =>
      if recordId == "" then .error "ID de expediente no proporcionado"
      else
        match record with
        | none => .error "No se encontró el expediente para eliminar"
        | some recordData =>
            match currentUser with
            | none => .error "Usuario no autenticado"
            | some user =>
                match recordData.createdBy with
                | some creator =>
                    if creator != user.uid then
                      let isAdmin := user.role == "owner"
                        || (user.businessId == some businessId && user.role == "assistant")
                      if !isAdmin then
                        .error "No tienes permiso para eliminar este expediente"
                      else .ok ()
                    else .ok ()
                | none => .ok ()

/-! ## Helper lemmas -/

theorem lookupKey_updateKey {α : Type} (l : List (String × α)) (k : String) (f : α → α) :
    lookupKey (updateKey l k f) k = (lookupKey l k).map f := by
  induction l with
  | nil => rfl
  | cons p rest ih =>
      rcases p with ⟨k', v⟩
      by_cases h : k' == k
      · simp [lookupKey, updateKey, List.find?, h]
      · simp only [updateKey, List.map_cons, if_neg h]
        simp only [lookupKey, List.find?, h]
        simpa [lookupKey, updateKey] using ih

theorem lookupKey_map_keyPreserving {α : Type} (l : List (String × α)) (k : String)
    (f : (String × α) → (String × α)) (g : α → α)
    (hf : ∀ p, f p = (p.1, g p.2)) :
    lookupKey (l.map f) k = (lookupKey l k).map g := by
  induction l with
  | nil => rfl
  | cons p rest ih =>
      rcases p with ⟨k', v⟩
      by_cases h : k' == k
      · simp [lookupKey, List.find?, hf, h]
      · simp only [List.map_cons, hf]
        simp only [lookupKey, List.find?, h]
        simpa [lookupKey] using ih

/-! ## Claims -/

/-- C2: `isLicenseExpired` returns true if and only if the license is
null, or its `isActive` field is false, or the current time is strictly
after its `endDate`; otherwise it returns false. -/
theorem c2_isLicenseExpired_iff (license : Option BusinessLicense) (now : JsDate) :
    isLicenseExpired license now = true ↔
      license = none ∨
        ∃ l, license = some l ∧
          (l.isActive = false ∨ timestamp l.endDate < timestamp now) := by
  cases license with
  | none => simp [isLicenseExpired]
  | some l =>
      cases h : l.isActive <;> simp [isLicenseExpired, h, Int.lt_iff_add_one_le]

/-- C4: `canAccessSection` grants an admin every section; a blocked
non-admin exactly the `notifications` section; a non-blocked non-admin
with a known invalid license exactly `dashboard` and `notifications`;
and everyone else every section. -/
theorem c4_canAccessSection (user : User) (licenseStatus : Option LicenseStatus)
    (sect : String) :
    (user.role = "admin" → canAccessSection (some user) licenseStatus sect = true) ∧
    (user.role ≠ "admin" → user.isBlocked = true →
      (canAccessSection (some user) licenseStatus sect = true ↔ sect = "notifications")) ∧
    (user.role ≠ "admin" → user.isBlocked = false →
      ∀ status, licenseStatus = some status → status.isValid = false →
        (canAccessSection (some user) licenseStatus sect = true ↔
          sect = "dashboard" ∨ sect = "notifications")) ∧
    (user.role ≠ "admin" → user.isBlocked = false →
      (licenseStatus = none ∨ ∃ status, licenseStatus = some status ∧ status.isValid = true) →
      canAccessSection (some user) licenseStatus sect = true) := by
  refine ⟨fun h => by simp [canAccessSection, h], fun h hb => ?_, fun h hb status hs hv => ?_,
    fun h hb hok => ?_⟩
  · simp [canAccessSection, h, hb]
  · subst hs
    simp [canAccessSection, h, hb, hv]
  · rcases hok with hn | ⟨status, hs, hv⟩
    · subst hn
      simp [canAccessSection, h, hb]
    · subst hs
      simp [canAccessSection, h, hb, hv]

/-- C4 witness: the four regimes at concrete users and sections. -/
theorem c4_canAccessSection_witness :
    canAccessSection (some { uid := "a1", role := "admin" }) none "admin-panel" = true ∧
    canAccessSection
      (some { uid := "u1", role := "assistant", isBlocked := true }) none "notifications" = true ∧
    canAccessSection
      (some { uid := "u1", role := "assistant", isBlocked := true }) none "appointments" ≠ true ∧
    canAccessSection (some { uid := "u2", role := "owner" })
      (some (missingBusinessStatus none)) "dashboard" = true ∧
    canAccessSection (some { uid := "u2", role := "owner" })
      (some (missingBusinessStatus none)) "services" ≠ true ∧
    canAccessSection (some { uid := "u2", role := "owner" }) none "services" = true := by
  refine ⟨(c4_canAccessSection _ none "admin-panel").1 rfl,
    ((c4_canAccessSection _ none "notifications").2.1 (by decide) rfl).mpr rfl,
    fun hcontra =>
      absurd (((c4_canAccessSection _ none "appointments").2.1 (by decide) rfl).mp hcontra)
        (by decide),
    ((c4_canAccessSection _ _ "dashboard").2.2.1 (by decide) rfl _ rfl rfl).mpr (Or.inl rfl),
    fun hcontra =>
      absurd (((c4_canAccessSection _ _ "services").2.2.1 (by decide) rfl _ rfl rfl).mp hcontra)
        (by decide),
    (c4_canAccessSection _ none "services").2.2.2 (by decide) rfl (Or.inl rfl)⟩

/-- C10: for an admin user, `checkUserLicenseStatus` and the status
`setupUserLicenseListener` emits are the fixed snapshot
`{isValid := true, isExpired := false, isExpiringSoon := false,
daysRemaining := 999, license := none, businessId := none}`,
independent of the stored businesses, snapshots, and the current
time. -/
theorem c10_adminStatus (user : User) (businesses : List (String × Business))
    (snapshot : Option Business) (now : JsDate) (h : user.role = "admin") :
    checkUserLicenseStatus user businesses now =
      { isValid := true, isExpired := false, isExpiringSoon := false,
        daysRemaining := 999, license := none, businessId := none } ∧
    setupUserLicenseListenerEmit user snapshot now =
      { isValid := true, isExpired := false, isExpiringSoon := false,
        daysRemaining := 999, license := none, businessId := none } := by
  constructor <;>
    simp [checkUserLicenseStatus, setupUserLicenseListenerEmit, h, adminLicenseStatus]

/-- C10 witness: a concrete admin against a store holding an expired
license still gets `daysRemaining = 999` and a valid status. -/
theorem c10_adminStatus_witness :
    checkUserLicenseStatus { uid := "a1", role := "admin" }
      [("b1", { businessKey := "K",
                license := some { type := .oneMonth, startDate := ⟨2024, 0, 15, 0⟩,
                                  endDate := ⟨2024, 1, 15, 0⟩, isActive := false,
                                  assignedBy := "a0", assignedAt := ⟨2024, 0, 15, 0⟩,
                                  renewalCount := 3 } })]
      ⟨2030, 5, 1, 0⟩ =
      { isValid := true, isExpired := false, isExpiringSoon := false,
        daysRemaining := 999, license := none, businessId := none } :=
  (c10_adminStatus { uid := "a1", role := "admin" } _ none ⟨2030, 5, 1, 0⟩ rfl).1

/-- C1: for a new candidate appointment whose selected service has
`resources = 1`, `checkTimeConflicts` reports a conflict exactly when
some non-cancelled appointment for the same service and date overlaps
the candidate half-openly in minutes from midnight
(`existingStart < candidateEnd` and `existingEnd > candidateStart`);
for a service with `resources > 1` no conflict is ever reported. -/
theorem c1_checkTimeConflicts (formData : AppointmentForm) (services : List Service)
    (appointments : List Appointment) (service : Service)
    (hsid : formData.serviceId ≠ "") (hdate : formData.date ≠ "")
    (hstart : formData.startTime ≠ "") (hend : formData.endTime ≠ "")
    (hfind : services.find? (fun s => s.id == formData.serviceId) = some service) :
    (service.resources = 1 →
      (checkTimeConflicts formData services appointments none ≠ [] ↔
        ∃ apt ∈ appointments,
          apt.serviceId = formData.serviceId ∧ apt.date = formData.date ∧
          apt.status ≠ "cancelled" ∧
          timeToMinutes apt.startTime < timeToMinutes formData.endTime ∧
          timeToMinutes apt.endTime > timeToMinutes formData.startTime)) ∧
    (service.resources > 1 → checkTimeConflicts formData services appointments none = []) := by
  constructor
  · intro hres
    rw [Ne, show checkTimeConflicts formData services appointments none =
        appointments.filter (fun apt =>
          true
          && apt.serviceId == formData.serviceId
          && apt.date == formData.date
          && apt.status != "cancelled"
          && decide (timeToMinutes formData.startTime < timeToMinutes apt.endTime)
          && decide (timeToMinutes formData.endTime > timeToMinutes apt.startTime)) by
      simp [checkTimeConflicts, hsid, hdate, hstart, hend, hfind, hres]]
    rw [List.filter_eq_nil_iff]
    push_neg
    constructor
    · rintro ⟨apt, hmem, hpred⟩
      refine ⟨apt, hmem, ?_⟩
      simpa [and_assoc, and_comm, and_left_comm] using hpred
    · rintro ⟨apt, hmem, h1, h2, h3, h4, h5⟩
      refine ⟨apt, hmem, ?_⟩
      simp [h1, h2, h3, h4, h5]
  · intro hres
    simp [checkTimeConflicts, hsid, hdate, hstart, hend, hfind, hres, Nat.not_lt,
      if_pos]

/-- C1 witness: with an existing 10:00–11:00 booking for a
single-resource service, an overlapping 10:30–10:45 candidate
conflicts, a touching 11:00–12:00 candidate does not, a different
service at the same time does not, and a two-resource service never
does. -/
theorem c1_checkTimeConflicts_witness :
    checkTimeConflicts
      { serviceId := "s1", date := "2024-05-01", startTime := "10:30", endTime := "10:45" }
      [{ id := "s1", resources := 1 }]
      [{ id := "a1", serviceId := "s1", date := "2024-05-01",
         startTime := "10:00", endTime := "11:00", status := "confirmed" }] none ≠ [] ∧
    checkTimeConflicts
      { serviceId := "s1", date := "2024-05-01", startTime := "11:00", endTime := "12:00" }
      [{ id := "s1", resources := 1 }]
      [{ id := "a1", serviceId := "s1", date := "2024-05-01",
         startTime := "10:00", endTime := "11:00", status := "confirmed" }] none = [] ∧
    checkTimeConflicts
      { serviceId := "s2", date := "2024-05-01", startTime := "10:00", endTime := "11:00" }
      [{ id := "s1", resources := 1 }, { id := "s2", resources := 1 }]
      [{ id := "a1", serviceId := "s1", date := "2024-05-01",
         startTime := "10:00", endTime := "11:00", status := "confirmed" }] none = [] ∧
    checkTimeConflicts
      { serviceId := "s3", date := "2024-05-01", startTime := "10:00", endTime := "11:00" }
      [{ id := "s3", resources := 2 }]
      [{ id := "a1", serviceId := "s3", date := "2024-05-01",
         startTime := "10:00", endTime := "11:00", status := "confirmed" }] none = [] := by
  refine ⟨?_, ?_, ?_, ?_⟩
  · exact ((c1_checkTimeConflicts _ _ _ { id := "s1", resources := 1 } (by decide) (by decide)
      (by decide) (by decide) (by decide)).1 rfl).mpr
      ⟨{ id := "a1", serviceId := "s1", date := "2024-05-01",
         startTime := "10:00", endTime := "11:00", status := "confirmed" },
        by decide, by decide, by decide, by decide, by decide, by decide⟩
  · by_contra hne
    rcases ((c1_checkTimeConflicts _ _ _ { id := "s1", resources := 1 } (by decide) (by decide)
      (by decide) (by decide) (by decide)).1 rfl).mp hne with ⟨apt, hmem, hprops⟩
    simp only [List.mem_singleton] at hmem
    subst hmem
    revert hprops
    decide
  · by_contra hne
    rcases ((c1_checkTimeConflicts _ _ _ { id := "s2", resources := 1 } (by decide) (by decide)
      (by decide) (by decide) (by decide)).1 rfl).mp hne with ⟨apt, hmem, hprops⟩
    simp only [List.mem_singleton] at hmem
    subst hmem
    revert hprops
    decide
  · exact (c1_checkTimeConflicts _ _ _ { id := "s3", resources := 2 } (by decide) (by decide)
      (by decide) (by decide) (by decide)).2 (by decide)

/-- C7: when editing an existing appointment, `checkTimeConflicts`
excludes that appointment (matched by id) from the conflict set, so no
reported conflict ever carries the edited appointment's id. -/
theorem c7_editExcludesSelf (formData : AppointmentForm) (services : List Service)
    (appointments : List Appointment) (editing : Appointment) (apt : Appointment)
    (h : apt ∈ checkTimeConflicts formData services appointments (some editing)) :
    apt.id ≠ editing.id := by
  unfold checkTimeConflicts at h
  split at h
  · simp at h
  · split at h
    · simp at h
    · split at h
      · simp at h
      · have hpred := (List.mem_filter.mp h).2
        simp only [Bool.and_eq_true, bne_iff_ne] at hpred
        exact hpred.1.1.1.1.1

/-- C7 witness: editing appointment `a1` at its own slot, the only
reported conflict is the other overlapping appointment `a2`, and the
theorem yields that its id differs from `a1`; re-saving `a1` alone at
its own unchanged times reports nothing. -/
theorem c7_editExcludesSelf_witness :
    Appointment.id
        { id := "a2", serviceId := "s1", date := "2024-05-01",
          startTime := "10:30", endTime := "11:30", status := "confirmed" } ≠
      Appointment.id
        { id := "a1", serviceId := "s1", date := "2024-05-01",
          startTime := "10:00", endTime := "11:00", status := "pending" } ∧
    checkTimeConflicts
      { serviceId := "s1", date := "2024-05-01", startTime := "10:00", endTime := "11:00" }
      [{ id := "s1", resources := 1 }]
      [{ id := "a1", serviceId := "s1", date := "2024-05-01",
         startTime := "10:00", endTime := "11:00", status := "pending" }]
      (some { id := "a1", serviceId := "s1", date := "2024-05-01",
              startTime := "10:00", endTime := "11:00", status := "pending" }) = [] :=
  ⟨c7_editExcludesSelf
      { serviceId := "s1", date := "2024-05-01", startTime := "10:00", endTime := "11:00" }
      [{ id := "s1", resources := 1 }]
      [{ id := "a1", serviceId := "s1", date := "2024-05-01",
         startTime := "10:00", endTime := "11:00", status := "pending" },
       { id := "a2", serviceId := "s1", date := "2024-05-01",
         startTime := "10:30", endTime := "11:30", status := "confirmed" }]
      { id := "a1", serviceId := "s1", date := "2024-05-01",
        startTime := "10:00", endTime := "11:00", status := "pending" }
      _ (by decide),
   by decide⟩

/-- The renewal count currently stored for a business
(`none` when the business or its license is absent). -/
def storedRenewalCount (store : Store) (businessId : String) : Option Nat :=
  (lookupKey store.businesses businessId).bind (fun b =>
    b.license.map (fun l => l.renewalCount))

theorem unblockBusinessUsers_businesses (businessId : String) (store : Store) :
    (unblockBusinessUsers businessId store).businesses = store.businesses := rfl

theorem blockBusinessUsers_businesses (businessId reason : String) (store : Store) :
    (blockBusinessUsers businessId reason store).businesses = store.businesses := rfl

theorem assignLicense_storedRenewalCount (store : Store) (businessId : String)
    (t : LicenseType) (adminId : String) (now : JsDate) (s1 : Store)
    (h : assignLicense businessId t adminId now store = .ok s1) :
    storedRenewalCount s1 businessId =
      some ((storedRenewalCount store businessId).getD 0 + 1) := by
  unfold assignLicense at h
  rcases hb : lookupKey store.businesses businessId with _ | business
  · rw [hb] at h
    simp at h
  · rw [hb] at h
    dsimp only at h
    rw [Except.ok.injEq] at h
    subst h
    unfold storedRenewalCount
    rw [unblockBusinessUsers_businesses]
    dsimp only
    rw [lookupKey_updateKey, hb]
    rcases hl : business.license with _ | lic <;> simp [hl]

theorem cancelLicense_storedRenewalCount (store : Store) (businessId : String)
    (adminId : String) (now : JsDate) (s1 : Store)
    (h : cancelLicense businessId adminId now store = .ok s1) :
    storedRenewalCount s1 businessId = storedRenewalCount store businessId := by
  unfold cancelLicense at h
  rcases hb : lookupKey store.businesses businessId with _ | business
  · rw [hb] at h
    simp at h
  · rw [hb] at h
    dsimp only at h
    rcases hl : business.license with _ | currentLicense
    · rw [hl] at h
      simp at h
    · rw [hl] at h
      dsimp only at h
      rw [Except.ok.injEq] at h
      subst h
      unfold storedRenewalCount
      rw [blockBusinessUsers_businesses]
      dsimp only
      rw [lookupKey_updateKey, hb]
      simp [hl]

/-- C5: every successful `assignLicense` stores a license whose
`renewalCount` is one more than the previous license's count (an
absent license counting as 0), so two successive calls increment it by
one each and it never decreases; a successful `cancelLicense` leaves
the stored `renewalCount` unchanged. -/
theorem c5_renewalCount (store : Store) (businessId : String)
    (t t2 : LicenseType) (adminId adminId2 : String) (now now2 : JsDate) :
    (∀ s1, assignLicense businessId t adminId now store = .ok s1 →
      storedRenewalCount s1 businessId =
        some ((storedRenewalCount store businessId).getD 0 + 1) ∧
      (storedRenewalCount store businessId).getD 0 <
        (storedRenewalCount s1 businessId).getD 0) ∧
    (∀ s1 s2, assignLicense businessId t adminId now store = .ok s1 →
      assignLicense businessId t2 adminId2 now2 s1 = .ok s2 →
      storedRenewalCount s1 businessId =
        some ((storedRenewalCount store businessId).getD 0 + 1) ∧
      storedRenewalCount s2 businessId =
        some ((storedRenewalCount store businessId).getD 0 + 2)) ∧
    (∀ s1, cancelLicense businessId adminId now store = .ok s1 →
      storedRenewalCount s1 businessId = storedRenewalCount store businessId) := by
  refine ⟨fun s1 h => ?_, fun s1 s2 h1 h2 => ?_, fun s1 h =>
    cancelLicense_storedRenewalCount store businessId adminId now s1 h⟩
  · have e := assignLicense_storedRenewalCount store businessId t adminId now s1 h
    rw [e]
    simp [e]
  · have e1 := assignLicense_storedRenewalCount store businessId t adminId now s1 h1
    have e2 := assignLicense_storedRenewalCount s1 businessId t2 adminId2 now2 s2 h2
    rw [e1] at e2
    simp only [Option.getD_some] at e2
    exact ⟨e1, by rw [e2]⟩

/-- Concrete store for the C5 witness: one business `b1` holding an
inactive license with `renewalCount = 3`. -/
def c5Store0 : Store :=
  { businesses := [("b1",
      { businessKey := "K",
        license := some { type := .oneMonth, startDate := ⟨2023, 0, 1, 0⟩,
                          endDate := ⟨2023, 1, 1, 0⟩, isActive := false,
                          assignedBy := "adm", assignedAt := ⟨2023, 0, 1, 0⟩,
                          renewalCount := 3 } })],
    users := [] }

/-- `c5Store0` after `assignLicense "b1" '1month'` on 2024-01-15. -/
def c5Store1 : Store :=
  { businesses := [("b1",
      { businessKey := "K",
        license := some { type := .oneMonth, startDate := ⟨2024, 0, 15, 0⟩,
                          endDate := ⟨2024, 1, 15, 0⟩, isActive := true,
                          assignedBy := "adm", assignedAt := ⟨2024, 0, 15, 0⟩,
                          renewalCount := 4 },
        isActive := some true })],
    users := [] }

/-- `c5Store1` after `assignLicense "b1" '15days'` on 2024-02-01. -/
def c5Store2 : Store :=
  { businesses := [("b1",
      { businessKey := "K",
        license := some { type := .fifteenDays, startDate := ⟨2024, 1, 1, 0⟩,
                          endDate := ⟨2024, 1, 16, 0⟩, isActive := true,
                          assignedBy := "adm", assignedAt := ⟨2024, 1, 1, 0⟩,
                          renewalCount := 5 },
        isActive := some true })],
    users := [] }

/-- C5 witness: assigning twice to `b1` (previous `renewalCount = 3`)
stores 4 and then 5, and a subsequent cancellation keeps 5. -/
theorem c5_renewalCount_witness :
    assignLicense "b1" .oneMonth "adm" ⟨2024, 0, 15, 0⟩ c5Store0 = .ok c5Store1 ∧
    storedRenewalCount c5Store1 "b1" = some 4 ∧
    assignLicense "b1" .fifteenDays "adm" ⟨2024, 1, 1, 0⟩ c5Store1 = .ok c5Store2 ∧
    storedRenewalCount c5Store2 "b1" = some 5 ∧
    ∀ s3, cancelLicense "b1" "adm" ⟨2024, 1, 2, 0⟩ c5Store2 = .ok s3 →
      storedRenewalCount s3 "b1" = some 5 := by
  refine ⟨rfl, ?_, rfl, ?_, fun s3 h3 => ?_⟩
  · exact (((c5_renewalCount c5Store0 "b1" .oneMonth .oneMonth "adm" "adm"
      ⟨2024, 0, 15, 0⟩ ⟨2024, 0, 15, 0⟩).1 c5Store1 rfl).1).trans (by decide)
  · exact (((c5_renewalCount c5Store0 "b1" .oneMonth .fifteenDays "adm" "adm"
      ⟨2024, 0, 15, 0⟩ ⟨2024, 1, 1, 0⟩).2.1 c5Store1 c5Store2
        rfl rfl).2).trans (by decide)
  · exact (((c5_renewalCount c5Store2 "b1" .oneMonth .oneMonth "adm" "adm"
      ⟨2024, 1, 2, 0⟩ ⟨2024, 1, 2, 0⟩).2.2 s3 h3)).trans (by decide)

/-- An associated but currently-unblocked user carrying a stale
`blockedReason`, for the C3 counterexample. -/
def c3User : User :=
  { uid := "u1", role := "assistant", businessId := some "b1",
    isBlocked := false, blockedReason := some "Licencia expirada" }

/-- Store holding only `c3User`, for the C3 counterexample. -/
def c3Store : Store :=
  { businesses := [], users := [("u1", c3User)] }

/-- C3 counterexample: `c3User` satisfies the association disjunction
for business `b1` (its `businessId` matches), yet the unblock cascade
leaves the user record untouched — in particular `blockedReason` is not
cleared — because `unblockBusinessUsers` only rewrites users whose
`isBlocked` is currently true. So the unblock cascade does not clear
`isBlocked` and `blockedReason` for exactly the users satisfying the
disjunction, refuting the claim as stated. -/
theorem c3_counterexample :
    userAssociatedWith c3User "b1" = true ∧
    lookupKey (unblockBusinessUsers "b1" c3Store).users "u1" = some c3User ∧
    ¬ lookupKey (unblockBusinessUsers "b1" c3Store).users "u1" =
        some { c3User with isBlocked := false, blockedReason := none } := by
  refine ⟨rfl, rfl, by decide⟩

/-- C3 (amended): the block cascade marks a user blocked with the given
reason if and only if the association disjunction holds, and the
unblock cascade clears `isBlocked` and `blockedReason` for exactly the
users that are currently blocked and satisfy the disjunction; the same
holds for the cascades as invoked by `cancelLicense` (reason
"Licencia cancelada por administrador") and by `assignLicense`. -/
theorem c3_cascades_amended (store : Store) (businessId reason uid : String)
    (user : User) (h : lookupKey store.users uid = some user) :
    lookupKey (blockBusinessUsers businessId reason store).users uid =
      some (if userAssociatedWith user businessId then
        { user with isBlocked := true, blockedReason := some reason } else user) ∧
    lookupKey (unblockBusinessUsers businessId store).users uid =
      some (if user.isBlocked && userAssociatedWith user businessId then
        { user with isBlocked := false, blockedReason := none } else user) ∧
    (∀ t adminId now s1, assignLicense businessId t adminId now store = .ok s1 →
      lookupKey s1.users uid =
        some (if user.isBlocked && userAssociatedWith user businessId then
          { user with isBlocked := false, blockedReason := none } else user)) ∧
    (∀ adminId now s1, cancelLicense businessId adminId now store = .ok s1 →
      lookupKey s1.users uid =
        some (if userAssociatedWith user businessId then
          { user with isBlocked := true, blockedReason := some "Licencia cancelada por administrador" } else user)) := by
  have hblock : ∀ r : String,
      lookupKey (blockBusinessUsers businessId r store).users uid =
        some (if userAssociatedWith user businessId then
          { user with isBlocked := true, blockedReason := some r } else user) := by
    intro r
    have := lookupKey_map_keyPreserving store.users uid
      (fun p => if userAssociatedWith p.2 businessId then
        (p.1, { p.2 with isBlocked := true, blockedReason := some r }) else p)
      (fun u => if userAssociatedWith u businessId then
        { u with isBlocked := true, blockedReason := some r } else u)
      (fun p => by by_cases hc : userAssociatedWith p.2 businessId <;> simp [hc])
    rw [show (blockBusinessUsers businessId r store).users =
      store.users.map (fun p => if userAssociatedWith p.2 businessId then
        (p.1, { p.2 with isBlocked := true, blockedReason := some r }) else p) from rfl,
      this, h]
    rfl
  have hunblock :
      lookupKey (unblockBusinessUsers businessId store).users uid =
        some (if user.isBlocked && userAssociatedWith user businessId then
          { user with isBlocked := false, blockedReason := none } else user) := by
    have := lookupKey_map_keyPreserving store.users uid
      (fun p => if p.2.isBlocked && userAssociatedWith p.2 businessId then
        (p.1, { p.2 with isBlocked := false, blockedReason := none }) else p)
      (fun u => if u.isBlocked && userAssociatedWith u businessId then
        { u with isBlocked := false, blockedReason := none } else u)
      (fun p => by
        by_cases hc : p.2.isBlocked && userAssociatedWith p.2 businessId <;> simp [hc])
    rw [show (unblockBusinessUsers businessId store).users =
      store.users.map (fun p => if p.2.isBlocked && userAssociatedWith p.2 businessId then
        (p.1, { p.2 with isBlocked := false, blockedReason := none }) else p) from rfl,
      this, h]
    rfl
  refine ⟨hblock reason, hunblock, fun t adminId now s1 ha => ?_, fun adminId now s1 hc => ?_⟩
  · unfold assignLicense at ha
    rcases hb : lookupKey store.businesses businessId with _ | business
    · rw [hb] at ha
      simp at ha
    · rw [hb] at ha
      dsimp only at ha
      rw [Except.ok.injEq] at ha
      subst ha
      exact hunblock
  · unfold cancelLicense at hc
    rcases hb : lookupKey store.businesses businessId with _ | business
    · rw [hb] at hc
      simp at hc
    · rw [hb] at hc
      dsimp only at hc
      rcases hl : business.license with _ | currentLicense
      · rw [hl] at hc
        simp at hc
      · rw [hl] at hc
        dsimp only at hc
        rw [Except.ok.injEq] at hc
        subst hc
        exact hblock "Licencia cancelada por administrador"

/-- Store for the C3 witness: one user per association predicate
(ownership, access entry, owner + current business), one blocked user
matching by `businessId`, and one unrelated user. -/
def c3WitnessStore : Store :=
  { businesses := []
    users :=
      [("u1", { uid := "u1", role := "owner", businessId := some "b1",
                isBlocked := false }),
       ("u2", { uid := "u2", role := "assistant", businessAccess := ["b1"],
                isBlocked := false }),
       ("u3", { uid := "u3", role := "owner", currentBusiness := some "b1",
                isBlocked := false }),
       ("u4", { uid := "u4", role := "assistant", businessId := some "b1",
                isBlocked := true, blockedReason := some "Licencia expirada" }),
       ("u5", { uid := "u5", role := "assistant", businessId := some "b9",
                isBlocked := false })] }

/-- C3 witness: blocking marks each of the three association shapes and
spares the unrelated user; unblocking rewrites only the
currently-blocked associated user. -/
theorem c3_cascades_amended_witness :
    lookupKey (blockBusinessUsers "b1" "Licencia expirada" c3WitnessStore).users "u1" =
      some { uid := "u1", role := "owner", businessId := some "b1",
             isBlocked := true, blockedReason := some "Licencia expirada" } ∧
    lookupKey (blockBusinessUsers "b1" "Licencia expirada" c3WitnessStore).users "u2" =
      some { uid := "u2", role := "assistant", businessAccess := ["b1"],
             isBlocked := true, blockedReason := some "Licencia expirada" } ∧
    lookupKey (blockBusinessUsers "b1" "Licencia expirada" c3WitnessStore).users "u3" =
      some { uid := "u3", role := "owner", currentBusiness := some "b1",
             isBlocked := true, blockedReason := some "Licencia expirada" } ∧
    lookupKey (blockBusinessUsers "b1" "Licencia expirada" c3WitnessStore).users "u5" =
      some { uid := "u5", role := "assistant", businessId := some "b9",
             isBlocked := false } ∧
    lookupKey (unblockBusinessUsers "b1" c3WitnessStore).users "u4" =
      some { uid := "u4", role := "assistant", businessId := some "b1",
             isBlocked := false, blockedReason := none } ∧
    lookupKey (unblockBusinessUsers "b1" c3WitnessStore).users "u1" =
      some { uid := "u1", role := "owner", businessId := some "b1",
             isBlocked := false } := by
  refine ⟨?_, ?_, ?_, ?_, ?_, ?_⟩
  · exact ((c3_cascades_amended c3WitnessStore "b1" "Licencia expirada" "u1" _ rfl).1).trans
      (by decide)
  · exact ((c3_cascades_amended c3WitnessStore "b1" "Licencia expirada" "u2" _ rfl).1).trans
      (by decide)
  · exact ((c3_cascades_amended c3WitnessStore "b1" "Licencia expirada" "u3" _ rfl).1).trans
      (by decide)
  · exact ((c3_cascades_amended c3WitnessStore "b1" "Licencia expirada" "u5" _ rfl).1).trans
      (by decide)
  · exact ((c3_cascades_amended c3WitnessStore "b1" "Licencia expirada" "u4" _ rfl).2.1).trans
      (by decide)
  · exact ((c3_cascades_amended c3WitnessStore "b1" "Licencia expirada" "u1" _ rfl).2.1).trans
      (by decide)

theorem rollDay_stop (fuel : Nat) (y : Int) (m d : Nat) (dt : JsDate)
    (h : d ≤ daysInMonth y m) :
    rollDay (fuel + 1) y m d dt = { dt with year := y, month := m, day := d } := by
  unfold rollDay
  rw [if_neg (by omega)]

theorem normDate_of_fits (dt : JsDate) (y : Int) (m d : Nat)
    (hm : m ≤ 11) (hd : d ≤ daysInMonth y m) :
    normDate dt y m d = { dt with year := y, month := m, day := d } := by
  unfold normDate
  rw [Nat.div_eq_of_lt (by omega), Nat.mod_eq_of_lt (by omega)]
  simpa using rollDay_stop d y m d dt hd

/-- C6: `calculateEndDate` performs calendar-field arithmetic: within
field bounds it adds 15 to the day for `15days`, 1/3/6 to the month for
`1month`/`3months`/`6months`, and 1 to the year for `1year`; a
`1month` license starting 2024-01-15 ends 2024-02-15; and the added
span is not a fixed duration (one month from 2024-01-15 covers 31 days
while one month from 2024-02-15 covers 29). -/
theorem c6_calculateEndDate :
    (∀ (y : Int) (m d ms : Nat), m ≤ 11 → d + 15 ≤ daysInMonth y m →
      calculateEndDate ⟨y, m, d, ms⟩ .fifteenDays = ⟨y, m, d + 15, ms⟩) ∧
    (∀ (y : Int) (m d ms : Nat), m + 1 ≤ 11 → d ≤ daysInMonth y (m + 1) →
      calculateEndDate ⟨y, m, d, ms⟩ .oneMonth = ⟨y, m + 1, d, ms⟩) ∧
    (∀ (y : Int) (m d ms : Nat), m + 3 ≤ 11 → d ≤ daysInMonth y (m + 3) →
      calculateEndDate ⟨y, m, d, ms⟩ .threeMonths = ⟨y, m + 3, d, ms⟩) ∧
    (∀ (y : Int) (m d ms : Nat), m + 6 ≤ 11 → d ≤ daysInMonth y (m + 6) →
      calculateEndDate ⟨y, m, d, ms⟩ .sixMonths = ⟨y, m + 6, d, ms⟩) ∧
    (∀ (y : Int) (m d ms : Nat), m ≤ 11 → d ≤ daysInMonth (y + 1) m →
      calculateEndDate ⟨y, m, d, ms⟩ .oneYear = ⟨y + 1, m, d, ms⟩) ∧
    calculateEndDate ⟨2024, 0, 15, 0⟩ .oneMonth = ⟨2024, 1, 15, 0⟩ ∧
    dayNumber (calculateEndDate ⟨2024, 0, 15, 0⟩ .oneMonth) -
        dayNumber ⟨2024, 0, 15, 0⟩ = 31 ∧
    dayNumber (calculateEndDate ⟨2024, 1, 15, 0⟩ .oneMonth) -
        dayNumber ⟨2024, 1, 15, 0⟩ = 29 := by
  refine ⟨fun y m d ms hm hd => normDate_of_fits ⟨y, m, d, ms⟩ y m (d + 15) hm hd,
    fun y m d ms hm hd => normDate_of_fits ⟨y, m, d, ms⟩ y (m + 1) d hm hd,
    fun y m d ms hm hd => normDate_of_fits ⟨y, m, d, ms⟩ y (m + 3) d hm hd,
    fun y m d ms hm hd => normDate_of_fits ⟨y, m, d, ms⟩ y (m + 6) d hm hd,
    fun y m d ms hm hd => normDate_of_fits ⟨y, m, d, ms⟩ (y + 1) m d hm hd,
    by decide, by decide, by decide⟩

/-- C6 witness: the field additions at concrete in-range dates. -/
theorem c6_calculateEndDate_witness :
    calculateEndDate ⟨2024, 2, 10, 0⟩ .fifteenDays = ⟨2024, 2, 25, 0⟩ ∧
    calculateEndDate ⟨2024, 4, 30, 0⟩ .oneMonth = ⟨2024, 5, 30, 0⟩ ∧
    calculateEndDate ⟨2024, 1, 15, 0⟩ .threeMonths = ⟨2024, 4, 15, 0⟩ ∧
    calculateEndDate ⟨2024, 2, 30, 0⟩ .sixMonths = ⟨2024, 8, 30, 0⟩ ∧
    calculateEndDate ⟨2023, 1, 28, 0⟩ .oneYear = ⟨2024, 1, 28, 0⟩ :=
  ⟨c6_calculateEndDate.1 2024 2 10 0 (by decide) (by decide),
   c6_calculateEndDate.2.1 2024 4 30 0 (by decide) (by decide),
   c6_calculateEndDate.2.2.1 2024 1 15 0 (by decide) (by decide),
   c6_calculateEndDate.2.2.2.1 2024 2 30 0 (by decide) (by decide),
   c6_calculateEndDate.2.2.2.2.1 2023 1 28 0 (by decide) (by decide)⟩

theorem hexChars_getD_mem (v : Fin 16) : hexChars.getD v.val ' ' ∈ hexChars := by
  fin_cases v <;> decide

theorem generateBusinessKey_length (draw : Fin 16 → Fin 16) :
    (generateBusinessKey draw).length = 16 := by
  unfold generateBusinessKey
  simp [String.length]

theorem generateBusinessKey_chars (draw : Fin 16 → Fin 16) :
    ∀ c ∈ (generateBusinessKey draw).data, c ∈ hexChars := by
  intro c hc
  unfold generateBusinessKey at hc
  rcases List.mem_map.mp hc with ⟨i, _, rfl⟩
  exact hexChars_getD_mem (draw i)

theorem generateUniqueKeyGo_ok (draws : Nat → Fin 16 → Fin 16)
    (businesses : List (String × Business)) :
    ∀ r a key, generateUniqueKeyGo draws businesses r a = .ok key →
      (∃ i, key = generateBusinessKey (draws i)) ∧
      isBusinessKeyUnique key businesses = true := by
  intro r
  induction r with
  | zero =>
      intro a key h
      simp [generateUniqueKeyGo] at h
  | succ n ih =>
      intro a key h
      unfold generateUniqueKeyGo at h
      by_cases hu : isBusinessKeyUnique (generateBusinessKey (draws a)) businesses
      · rw [if_pos hu] at h
        cases h
        exact ⟨⟨a, rfl⟩, hu⟩
      · rw [if_neg hu] at h
        exact ih (a + 1) key h

theorem generateUniqueKeyGo_error (draws : Nat → Fin 16 → Fin 16)
    (businesses : List (String × Business)) :
    ∀ r a, (∀ j, a ≤ j → j < a + r →
        isBusinessKeyUnique (generateBusinessKey (draws j)) businesses = false) →
      generateUniqueKeyGo draws businesses r a =
        .error "No se pudo generar una clave única después de varios intentos" := by
  intro r
  induction r with
  | zero => intro a _; rfl
  | succ n ih =>
      intro a h
      unfold generateUniqueKeyGo
      rw [if_neg (by rw [h a (Nat.le_refl a) (by omega)]; simp)]
      exact ih (a + 1) (fun j hj1 hj2 => h j (by omega) (by omega))

/-- C8: every successfully generated business key is a 16-character
string over the uppercase hex alphabet that no stored business already
carries; and when the first 10 generated keys all collide with stored
keys the generator raises the `ValidationError` instead of retrying
further. -/
theorem c8_generateUniqueBusinessKey (draws : Nat → Fin 16 → Fin 16)
    (businesses : List (String × Business)) :
    (∀ key, generateUniqueBusinessKey draws businesses = .ok key →
      key.length = 16 ∧ (∀ c ∈ key.data, c ∈ hexChars) ∧
      ∀ p ∈ businesses, p.2.businessKey ≠ key) ∧
    ((∀ i, i < 10 →
        isBusinessKeyUnique (generateBusinessKey (draws i)) businesses = false) →
      generateUniqueBusinessKey draws businesses =
        .error "No se pudo generar una clave única después de varios intentos") := by
  constructor
  · intro key h
    rcases generateUniqueKeyGo_ok draws businesses 10 0 key h with ⟨⟨i, rfl⟩, hu⟩
    refine ⟨generateBusinessKey_length (draws i), generateBusinessKey_chars (draws i), ?_⟩
    intro p hp
    simp only [isBusinessKeyUnique, List.all_eq_true, bne_iff_ne] at hu
    exact hu p hp
  · intro h
    exact generateUniqueKeyGo_error draws businesses 10 0 (fun j _ hj => h j (by omega))

/-- C8 witness: an all-zeros draw sequence against an empty store
yields the key `0000000000000000` with the required shape; against a
store already holding that key, all 10 attempts collide and the
generator fails. -/
theorem c8_generateUniqueBusinessKey_witness :
    generateUniqueBusinessKey (fun _ _ => 0) [] = .ok "0000000000000000" ∧
    ("0000000000000000" : String).length = 16 ∧
    (∀ c ∈ ("0000000000000000" : String).data, c ∈ hexChars) ∧
    generateUniqueBusinessKey (fun _ _ => 0) [("b1", { businessKey := "0000000000000000" })] =
      .error "No se pudo generar una clave única después de varios intentos" := by
  have hok : generateUniqueBusinessKey (fun _ _ => 0) [] = .ok "0000000000000000" := rfl
  have h := (c8_generateUniqueBusinessKey (fun _ _ => 0) []).1 "0000000000000000" hok
  exact ⟨hok, h.1, h.2.1,
    (c8_generateUniqueBusinessKey (fun _ _ => 0)
      [("b1", { businessKey := "0000000000000000" })]).2 (fun i _ => rfl)⟩

theorem validateRecordAccess_ok_iff (user : User) (businessAccess : List String)
    (businessId : String) :
    validateRecordAccess (some user) businessAccess businessId = .ok () ↔
      (user.businessId = some businessId ∨ businessId ∈ businessAccess) := by
  unfold validateRecordAccess
  dsimp only
  by_cases hcond : (user.businessId == some businessId
      || businessAccess.contains businessId) = true
  · rw [if_pos hcond]
    simp only [Bool.or_eq_true, beq_iff_eq, List.elem_iff] at hcond
    simp [hcond]
  · rw [if_neg hcond]
    simp only [Bool.or_eq_true, beq_iff_eq, List.elem_iff, not_or] at hcond
    simp [hcond.1, hcond.2]

/-- C9: deleting a digital record created by someone else succeeds
exactly when the caller passes `validateRecordAccess` for the target
business and additionally holds the extra authorization the delete path
checks (`role === 'owner'`, or `businessId === target` with
`role === 'assistant'`); in every other case a permission error is
raised. -/
theorem c9_deleteClientRecord (user : User) (businessAccess : List String)
    (businessId recordId : String) (record : DigitalRecord) (creator : String)
    (hrid : recordId ≠ "") (hcb : record.createdBy = some creator)
    (hne : creator ≠ user.uid) :
    (deleteClientRecord (some user) businessAccess businessId recordId (some record) =
        .ok () ↔
      (validateRecordAccess (some user) businessAccess businessId = .ok () ∧
        (user.role = "owner" ∨
          (user.businessId = some businessId ∧ user.role = "assistant")))) ∧
    (validateRecordAccess (some user) businessAccess businessId = .ok () →
      ¬ (user.role = "owner" ∨
          (user.businessId = some businessId ∧ user.role = "assistant")) →
      deleteClientRecord (some user) businessAccess businessId recordId (some record) =
        .error "No tienes permiso para eliminar este expediente") ∧
    (validateRecordAccess (some user) businessAccess businessId ≠ .ok () →
      deleteClientRecord (some user) businessAccess businessId recordId (some record) =
        .error "No tienes permiso para acceder a este recurso") := by
  by_cases hcond : (user.businessId == some businessId
      || businessAccess.contains businessId) = true
  · have hv : validateRecordAccess (some user) businessAccess businessId = .ok () := by
      unfold validateRecordAccess
      dsimp only
      rw [if_pos hcond]
    have hdel : deleteClientRecord (some user) businessAccess businessId recordId
        (some record) =
        (if !(user.role == "owner"
            || (user.businessId == some businessId && user.role == "assistant")) then
          .error "No tienes permiso para eliminar este expediente"
        else .ok ()) := by
      unfold deleteClientRecord
      rw [hv]
      dsimp only
      rw [show (recordId == "") = false from beq_eq_false_iff_ne.mpr hrid, hcb]
      dsimp only
      rw [show (creator != user.uid) = true from bne_iff_ne.mpr hne]
      rfl
    by_cases hadm : (user.role == "owner"
        || (user.businessId == some businessId && user.role == "assistant")) = true
    · have hadmp : user.role = "owner" ∨
          (user.businessId = some businessId ∧ user.role = "assistant") := by
        simpa using hadm
      refine ⟨?_, fun _ hcontra => absurd hadmp hcontra, fun hcontra => absurd hv hcontra⟩
      rw [hdel, hadm]
      simp [hv, hadmp]
    · have hadmp : ¬ (user.role = "owner" ∨
          (user.businessId = some businessId ∧ user.role = "assistant")) := by
        simpa using hadm
      have hadmf : (user.role == "owner"
          || (user.businessId == some businessId && user.role == "assistant")) = false :=
        Bool.eq_false_iff.mpr hadm
      refine ⟨?_, fun _ _ => ?_, fun hcontra => absurd hv hcontra⟩
      · rw [hdel, hadmf]
        simp [hadmp]
      · rw [hdel, hadmf]
        simp
  · have hv : validateRecordAccess (some user) businessAccess businessId =
        .error "No tienes permiso para acceder a este recurso" := by
      unfold validateRecordAccess
      dsimp only
      rw [if_neg hcond]
    have hvne : validateRecordAccess (some user) businessAccess businessId ≠ .ok () := by
      rw [hv]
      intro h
      exact Except.noConfusion h
    have hdel : deleteClientRecord (some user) businessAccess businessId recordId
        (some record) = .error "No tienes permiso para acceder a este recurso" := by
      unfold deleteClientRecord
      rw [hv]
    refine ⟨?_, fun hok _ => absurd hok hvne, fun _ => hdel⟩
    rw [hdel]
    constructor
    · intro h
      exact absurd h (fun h2 => Except.noConfusion h2)
    · rintro ⟨hok, -⟩
      exact absurd hok hvne

/-- C9 witness: an owner of the business may delete a foreign-created
record; an assistant linked only through `businessAccess` is refused
with the delete permission error; an outsider fails record access. -/
theorem c9_deleteClientRecord_witness :
    deleteClientRecord
      (some { uid := "u1", role := "owner", businessId := some "b1" }) []
      "b1" "r1" (some { id := "r1", businessId := "b1", createdBy := some "u9" }) =
      .ok () ∧
    deleteClientRecord
      (some { uid := "u2", role := "assistant", businessAccess := ["b1"] }) ["b1"]
      "b1" "r1" (some { id := "r1", businessId := "b1", createdBy := some "u9" }) =
      .error "No tienes permiso para eliminar este expediente" ∧
    deleteClientRecord
      (some { uid := "u3", role := "owner", businessId := some "b2" }) []
      "b1" "r1" (some { id := "r1", businessId := "b1", createdBy := some "u9" }) =
      .error "No tienes permiso para acceder a este recurso" := by
  refine ⟨?_, ?_, ?_⟩
  · exact (c9_deleteClientRecord { uid := "u1", role := "owner", businessId := some "b1" }
      [] "b1" "r1" { id := "r1", businessId := "b1", createdBy := some "u9" } "u9"
      (by decide) rfl (by decide)).1.mpr ⟨rfl, Or.inl rfl⟩
  · exact (c9_deleteClientRecord { uid := "u2", role := "assistant", businessAccess := ["b1"] }
      ["b1"] "b1" "r1" { id := "r1", businessId := "b1", createdBy := some "u9" } "u9"
      (by decide) rfl (by decide)).2.1 rfl (by decide)
  · exact (c9_deleteClientRecord { uid := "u3", role := "owner", businessId := some "b2" }
      [] "b1" "r1" { id := "r1", businessId := "b1", createdBy := some "u9" } "u9"
      (by decide) rfl (by decide)).2.2
      (fun h => Except.noConfusion h)

end MakeAgend
